import Mathlib

/-!
Verification of the natural-language specification of
`node-eks-app-monitoring` against its source (`src/server.js`).

The program is a single-process Express 4 HTTP server:

  app.get("/",        (req, res) => res.send("Hello from Node.js App 🚀"))
  app.get("/health",  (req, res) => res.json({ status: "UP" }))
  app.get("/metrics", async (req, res) => {
    res.set("Content-Type", register.contentType);
    res.end(await register.metrics()); })
  app.listen(3000, ...)

We shallow-embed the request/response behaviour of this program.  Library
behaviour the code relies on is embedded faithfully from the documented
semantics of the libraries pinned by the repository (express ^4.18.2,
prom-client, node:18-alpine):
  - `res.send(string)` sets `Content-Type: text/html; charset=utf-8`;
  - `res.json(obj)` sets `Content-Type: application/json; charset=utf-8`
    and serialises the object with JSON.stringify;
  - unmatched paths fall through to Express's final handler, a 404 with an
    HTML `Cannot <METHOD> <path>` body;
  - `register.contentType` in prom-client is the constant
    `text/plain; version=0.0.4; charset=utf-8`;
  - Express 4 invokes a route handler inside a try/catch that catches only
    synchronous throws; the promise returned by an `async` handler is
    ignored, so a rejection of `await register.metrics()` becomes an
    unhandled promise rejection, which on Node 18 (default
    `--unhandled-rejections=throw`) terminates the process.
-/

namespace NodeEksApp

/-- `HealthStatus` enumeration from the spec data model (section 3). -/
inductive HealthStatus where
  | UP
  | DEGRADED
  | DOWN
deriving DecidableEq, Repr

/-- An incoming HTTP request: method, path, and the parts the handlers
never read (headers, query string, body). -/
structure Request where
  method : String
  path : String
  headers : List (String × String)
  query : List (String × String)
  body : String
deriving DecidableEq, Repr

/-- An HTTP response: status code, optional Content-Type header, body. -/
structure Response where
  status : Nat
  contentType : Option String
  body : String
deriving DecidableEq, Repr

/-- Outcome of handling one request: either a response is written, or the
process crashes (unhandled promise rejection under Express 4 / Node 18). -/
inductive Outcome where
  | reply (res : Response)
  | crash (msg : String)
deriving DecidableEq, Repr

/-- The health reporter of the program: the `/health` handler
unconditionally reports UP (`res.json({ status: "UP" })`); there are no
sub-checks and no other producer of a `HealthStatus` in the code. -/
def healthReporterCheck : HealthStatus := HealthStatus.UP

/-- `GET /` handler: `res.send("Hello from Node.js App 🚀")`.  For a string
argument Express `res.send` sets `Content-Type: text/html; charset=utf-8`. -/
def homeResponse : Response :=
  { status := 200
    contentType := some "text/html; charset=utf-8"
    body := "Hello from Node.js App 🚀" }

/-- `GET /health` handler: `res.json({ status: "UP" })` — status 200,
`Content-Type: application/json; charset=utf-8`, body the JSON.stringify
output of the object literal. -/
def healthResponse : Response :=
  { status := 200
    contentType := some "application/json; charset=utf-8"
    body := "\x7b\"status\":\"UP\"\x7d" }

/-- prom-client constant `register.contentType`. -/
def registerContentType : String := "text/plain; version=0.0.4; charset=utf-8"

/-- `GET /metrics` handler, parametrised by the outcome of the
`register.metrics()` promise for this request.  On fulfilment the handler
sets the registry's content type and ends the response with the rendered
text; on rejection Express 4 never sees the error (the handler is `async`),
no response is produced and the unhandled rejection kills the process. -/
def metricsHandler (renderResult : Except String String) : Outcome :=
  match renderResult with
  | Except.ok text =>
      Outcome.reply
        { status := 200, contentType := some registerContentType, body := text }
  | Except.error e => Outcome.crash e

/-- Express final handler for unmatched routes: 404 with an HTML body
`Cannot <METHOD> <path>`. -/
def notFoundResponse (req : Request) : Response :=
  { status := 404
    contentType := some "text/html; charset=utf-8"
    body := "Cannot " ++ req.method ++ " " ++ req.path }

/-- Route dispatch of the server: the three `app.get` registrations are
tried in order on (method, path); anything else falls through to the 404
final handler.  `renderResult` is the outcome of `register.metrics()`
during this request (only consulted on the `/metrics` route). -/
def dispatch (renderResult : Except String String) (req : Request) : Outcome :=
  if req.method = "GET" ∧ req.path = "/" then
    Outcome.reply homeResponse
  else if req.method = "GET" ∧ req.path = "/health" then
    Outcome.reply healthResponse
  else if req.method = "GET" ∧ req.path = "/metrics" then
    metricsHandler renderResult
  else
    Outcome.reply (notFoundResponse req)

/-- The listening port: `app.listen(3000, ...)` — the port is the literal
3000; the environment is never consulted. -/
def listenPort (env : List (String × String)) : Nat :=
  match env with
  | _ => 3000

/-- Environment lookup (model of `process.env`). -/
def lookupEnv (env : List (String × String)) (k : String) : Option String :=
  (env.find? (fun p => p.1 = k)).map Prod.snd

/-- Severity rank of a health status under the spec's order
DOWN > DEGRADED > UP. -/
def severity : HealthStatus → Nat
  | HealthStatus.UP => 0
  | HealthStatus.DEGRADED => 1
  | HealthStatus.DOWN => 2

/-- Modelled from the spec: the worst of two statuses under
DOWN > DEGRADED > UP (section 4.3's most-severe-wins rule); this
aggregation code exists nowhere in `src/`. -/
def worseOf (a b : HealthStatus) : HealthStatus :=
  if severity b ≤ severity a then a else b

/-- Modelled from the spec: the extended Health Reporter's aggregate of a
list of sub-check statuses, the worst status among them (UP when there are
no sub-checks, as in the current code). -/
def aggregate (subs : List HealthStatus) : HealthStatus :=
  subs.foldl worseOf HealthStatus.UP

/-- A metric descriptor: unique name and current numeric value (the spec's
kind and labels play no role in the claims and are elided into the name). -/
structure Metric where
  name : String
  value : Int
deriving DecidableEq, Repr

/-- Registration-time error taxonomy entry from spec section 7. -/
inductive RegistrationError where
  | DuplicateNameError (name : String)
deriving DecidableEq, Repr

/-- Modelled from the spec: a Registry is an insertion-ordered set of
metrics (section 3); the registry implementation is prom-client library
code, not part of `src/`. -/
structure Registry where
  metrics : List Metric
deriving DecidableEq, Repr

/-- Modelled from the spec: `register(metric_descriptor)` fails with
`DuplicateNameError` if the name already exists, otherwise appends the
metric to the ordered set (section 4.1). -/
def Registry.registerMetric (r : Registry) (m : Metric) :
    Except RegistrationError Registry :=
  if r.metrics.any (fun x => x.name == m.name) then
    Except.error (RegistrationError.DuplicateNameError m.name)
  else
    Except.ok { metrics := r.metrics ++ [m] }

/-- One exposition line: `metric_name numeric_value`. -/
def lineFor (m : Metric) : String :=
  m.name ++ " " ++ toString m.value

/-- Modelled from the spec: `render()` produces a newline-delimited text
representation, one line per metric, in registration order (section 4.1);
the list is the sequence of lines. -/
def Registry.render (r : Registry) : List String :=
  r.metrics.map lineFor

/-- The metric name carried by an exposition line: the characters before
the first space. -/
def entryName (line : String) : String :=
  String.mk (line.data.takeWhile (fun c => c ≠ ' '))

/-- The media type of a Content-Type header value: the characters before
the first `;` parameter separator. -/
def mediaType (ct : String) : String :=
  String.mk (ct.data.takeWhile (fun c => c ≠ ';'))

/-! ### Helper lemmas -/

lemma severity_worseOf_left (a b : HealthStatus) :
    severity a ≤ severity (worseOf a b) := by
  unfold worseOf
  split
  · exact Nat.le_refl _
  · omega

lemma severity_worseOf_right (a b : HealthStatus) :
    severity b ≤ severity (worseOf a b) := by
  unfold worseOf
  split
  · assumption
  · exact Nat.le_refl _

lemma worseOf_eq_or (a b : HealthStatus) :
    worseOf a b = a ∨ worseOf a b = b := by
  unfold worseOf
  split
  · exact Or.inl rfl
  · exact Or.inr rfl

lemma severity_foldl_init (subs : List HealthStatus) :
    ∀ a, severity a ≤ severity (List.foldl worseOf a subs) := by
  induction subs with
  | nil => intro a; exact Nat.le_refl _
  | cons x xs ih =>
      intro a
      rw [List.foldl_cons]
      exact Nat.le_trans (severity_worseOf_left a x) (ih (worseOf a x))

lemma severity_foldl_mem (subs : List HealthStatus) :
    ∀ a t, t ∈ subs → severity t ≤ severity (List.foldl worseOf a subs) := by
  induction subs with
  | nil => intro a t ht; cases ht
  | cons x xs ih =>
      intro a t ht
      rw [List.foldl_cons]
      rcases List.mem_cons.mp ht with h | h
      · subst h
        exact Nat.le_trans (severity_worseOf_right a t)
          (severity_foldl_init xs (worseOf a t))
      · exact ih (worseOf a x) t h

lemma foldl_worseOf_mem (subs : List HealthStatus) :
    ∀ a, List.foldl worseOf a subs = a ∨ List.foldl worseOf a subs ∈ subs := by
  induction subs with
  | nil => intro a; exact Or.inl rfl
  | cons x xs ih =>
      intro a
      rw [List.foldl_cons]
      rcases ih (worseOf a x) with h | h
      · rcases worseOf_eq_or a x with h2 | h2
        · exact Or.inl (h.trans h2)
        · exact Or.inr (by rw [h, h2]; exact List.mem_cons_self x xs)
      · exact Or.inr (List.mem_cons_of_mem x h)

lemma takeWhile_append_stops (p : Char → Bool) (xs : List Char) (y : Char)
    (ys : List Char) (hxs : ∀ x ∈ xs, p x = true) (hy : p y = false) :
    (xs ++ y :: ys).takeWhile p = xs := by
  induction xs with
  | nil => simp [List.takeWhile_cons, hy]
  | cons a as ih =>
      have ha : p a = true := hxs a (List.mem_cons_self a as)
      simp only [List.cons_append, List.takeWhile_cons, ha, if_true]
      rw [ih (fun x hx => hxs x (List.mem_cons_of_mem a hx))]

lemma entryName_lineFor (m : Metric) (h : ' ' ∉ m.name.data) :
    entryName (lineFor m) = m.name := by
  unfold entryName lineFor
  rw [String.data_append, String.data_append]
  have hdata : " ".data = [' '] := rfl
  rw [hdata, List.append_assoc, List.singleton_append]
  rw [takeWhile_append_stops _ _ _ _ (fun x hx => by
        simp only [decide_eq_true_eq]; exact fun hxe => h (hxe ▸ hx))
      (by simp)]

lemma render_countP (r : Registry) (n : String)
    (hok : ∀ m ∈ r.metrics, ' ' ∉ m.name.data) :
    r.render.countP (fun line => entryName line == n) =
      r.metrics.countP (fun m => m.name == n) := by
  unfold Registry.render
  rw [List.countP_map]
  exact List.countP_congr (fun m hm => by
    simp only [Function.comp_apply, entryName_lineFor m (hok m hm)])

lemma dispatch_home_eq (rr : Except String String) (req : Request)
    (hm : req.method = "GET") (hp : req.path = "/") :
    dispatch rr req = Outcome.reply homeResponse := by
  unfold dispatch
  rw [hm, hp, if_pos (by decide)]

lemma dispatch_health_eq (rr : Except String String) (req : Request)
    (hm : req.method = "GET") (hp : req.path = "/health") :
    dispatch rr req = Outcome.reply healthResponse := by
  unfold dispatch
  rw [hm, hp, if_neg (by decide), if_pos (by decide)]

/-! ### Claim theorems -/

/-- C1: every `GET /health` request is answered with status 200 and the
JSON body `\x7b"status":"UP"\x7d`; the Health Reporter (the handler's only
status producer) always reports UP. -/
theorem health_route_always_up (rr : Except String String) (req : Request)
    (hm : req.method = "GET") (hp : req.path = "/health") :
    healthReporterCheck = HealthStatus.UP ∧
    dispatch rr req = Outcome.reply healthResponse ∧
    healthResponse.status = 200 ∧
    healthResponse.body = "\x7b\"status\":\"UP\"\x7d" :=
  ⟨rfl, dispatch_health_eq rr req hm hp, rfl, rfl⟩

theorem health_route_always_up_witness :
    healthReporterCheck = HealthStatus.UP ∧
    dispatch (Except.ok "") (Request.mk "GET" "/health" [] [] "") =
      Outcome.reply healthResponse ∧
    healthResponse.status = 200 ∧
    healthResponse.body = "\x7b\"status\":\"UP\"\x7d" :=
  health_route_always_up (Except.ok "") (Request.mk "GET" "/health" [] [] "")
    rfl rfl

/-- C2 (amended): the listening port is the hard-coded constant 3000 for
every environment; `app.listen(3000, ...)` never consults `process.env`. -/
theorem listen_port_fixed_3000 (env : List (String × String)) :
    listenPort env = 3000 := rfl

/-- C2 counterexample: with the port environment variable set
(`PORT=4000`), the server still binds 3000, not the configured 4000, so the
port is not configurable via an environment variable. -/
theorem listen_port_env_ignored :
    lookupEnv [("PORT", "4000")] "PORT" = some "4000" ∧
    listenPort [("PORT", "4000")] = 3000 ∧ (3000 : Nat) ≠ 4000 := by
  decide

/-- C3 (amended): every `GET /` request is answered 200 with the static
greeting body and `Content-Type: text/html; charset=utf-8` (the Express
`res.send` default for string bodies), identically on every request. -/
theorem home_route_static (rr : Except String String) (req : Request)
    (hm : req.method = "GET") (hp : req.path = "/") :
    dispatch rr req = Outcome.reply homeResponse ∧
    homeResponse.status = 200 ∧
    homeResponse.body = "Hello from Node.js App 🚀" ∧
    homeResponse.contentType = some "text/html; charset=utf-8" :=
  ⟨dispatch_home_eq rr req hm hp, rfl, rfl, rfl⟩

theorem home_route_static_witness :
    dispatch (Except.ok "") (Request.mk "GET" "/" [] [] "") =
      Outcome.reply homeResponse ∧
    homeResponse.status = 200 ∧
    homeResponse.body = "Hello from Node.js App 🚀" ∧
    homeResponse.contentType = some "text/html; charset=utf-8" :=
  home_route_static (Except.ok "") (Request.mk "GET" "/" [] [] "") rfl rfl

/-- C3 counterexample: the `GET /` response carries media type `text/html`
(from `res.send` on a string), which is neither `text/plain` nor
`application/json` as the claim requires. -/
theorem home_content_type_not_plain_or_json :
    dispatch (Except.ok "") (Request.mk "GET" "/" [] [] "") =
      Outcome.reply homeResponse ∧
    homeResponse.contentType = some "text/html; charset=utf-8" ∧
    Option.map mediaType homeResponse.contentType = some "text/html" ∧
    Option.map mediaType homeResponse.contentType ≠ some "text/plain" ∧
    Option.map mediaType homeResponse.contentType ≠ some "application/json" := by
  decide

/-- C4: for every `HealthStatus` the reporter actually produces (only UP),
the `/health` route's status code is 503 exactly when that status is DOWN;
the route answers 200 and the produced status is never DOWN. -/
theorem health_status_code_503_iff_down (s : HealthStatus)
    (h : s = healthReporterCheck) :
    healthResponse.status = 200 ∧
    (healthResponse.status = 503 ↔ s = HealthStatus.DOWN) := by
  subst h
  decide

theorem health_status_code_503_iff_down_witness :
    healthResponse.status = 200 ∧
    (healthResponse.status = 503 ↔ healthReporterCheck = HealthStatus.DOWN) :=
  health_status_code_503_iff_down healthReporterCheck rfl

/-- C5: the spec-modelled aggregation is most-severe-wins: for every list
of sub-check statuses the aggregate bounds every sub-check's severity under
DOWN > DEGRADED > UP, is itself one of the sub-checks (or UP for the empty
list), and the current reporter is the zero-sub-check instance. -/
theorem health_aggregation_most_severe_wins (subs : List HealthStatus) :
    (∀ t ∈ subs, severity t ≤ severity (aggregate subs)) ∧
    (aggregate subs = HealthStatus.UP ∨ aggregate subs ∈ subs) ∧
    aggregate [] = healthReporterCheck :=
  ⟨fun t ht => severity_foldl_mem subs HealthStatus.UP t ht,
   foldl_worseOf_mem subs HealthStatus.UP, rfl⟩

theorem health_aggregation_most_severe_wins_witness :
    severity HealthStatus.DOWN ≤ severity (aggregate
      [HealthStatus.UP, HealthStatus.DOWN, HealthStatus.DEGRADED]) ∧
    aggregate [] = healthReporterCheck :=
  ⟨(health_aggregation_most_severe_wins
      [HealthStatus.UP, HealthStatus.DOWN, HealthStatus.DEGRADED]).1
      HealthStatus.DOWN (by decide),
   (health_aggregation_most_severe_wins []).2.2⟩

/-- C6: every response actually written by the `GET /metrics` route has
status 200 (hence never 500), carries the Registry's declared exposition
content type (whose media type and version parameter are
`text/plain; version=0.0.4`), and its body is the `register.metrics()`
render output. -/
theorem metrics_route_contract (rr : Except String String) (req : Request)
    (res : Response) (hm : req.method = "GET") (hp : req.path = "/metrics")
    (h : dispatch rr req = Outcome.reply res) :
    res.status = 200 ∧ res.contentType = some registerContentType ∧
    rr = Except.ok res.body ∧ res.status ≠ 500 ∧
    List.isPrefixOf ("text/plain; version=0.0.4").data
      registerContentType.data = true := by
  unfold dispatch at h
  rw [hm, hp, if_neg (by decide), if_neg (by decide), if_pos (by decide)] at h
  cases rr with
  | ok t =>
      simp only [metricsHandler] at h
      injection h with h2
      subst h2
      exact ⟨rfl, rfl, rfl, (by decide : (200 : Nat) ≠ 500), by decide⟩
  | error e =>
      simp only [metricsHandler] at h
      exact (Outcome.noConfusion h)

theorem metrics_route_contract_witness :
    (Response.mk 200 (some registerContentType) "pm 1").status = 200 ∧
    (Response.mk 200 (some registerContentType) "pm 1").contentType =
      some registerContentType ∧
    (Except.ok "pm 1" : Except String String) =
      Except.ok (Response.mk 200 (some registerContentType) "pm 1").body ∧
    (Response.mk 200 (some registerContentType) "pm 1").status ≠ 500 ∧
    List.isPrefixOf ("text/plain; version=0.0.4").data
      registerContentType.data = true :=
  metrics_route_contract (Except.ok "pm 1")
    (Request.mk "GET" "/metrics" [] [] "")
    (Response.mk 200 (some registerContentType) "pm 1") rfl rfl (by decide)

/-- C7: evaluation at the failing input — when `register.metrics()`
rejects during a `GET /metrics` request, the Express 4 async handler never
converts the error to a 5xx response; the unhandled rejection terminates
the listening process (Node 18 default), contradicting the containment
claim. -/
theorem metrics_rejection_kills_process :
    dispatch (Except.error "metrics collection failed")
      (Request.mk "GET" "/metrics" [] [] "") =
      Outcome.crash "metrics collection failed" := by
  decide

/-- C8: within a Registry, for a (space-free) metric name carried by
exactly one registered metric, `render()` contains exactly one entry for
that name, and registering any further metric with that name fails with
`DuplicateNameError` instead of modifying the Registry. -/
theorem registry_unique_names (r : Registry) (n : String)
    (hok : ∀ m ∈ r.metrics, ' ' ∉ m.name.data)
    (h1 : r.metrics.countP (fun m => m.name == n) = 1) :
    r.render.countP (fun line => entryName line == n) = 1 ∧
    ∀ d : Metric, d.name = n →
      r.registerMetric d =
        Except.error (RegistrationError.DuplicateNameError n) := by
  constructor
  · rw [render_countP r n hok]
    exact h1
  · intro d hd
    subst hd
    have hex : r.metrics.any (fun x => x.name == d.name) = true := by
      rw [List.any_eq_true]
      exact List.countP_pos_iff.mp (by omega)
    unfold Registry.registerMetric
    rw [if_pos hex]

theorem registry_unique_names_witness :
    (Registry.mk [Metric.mk "up" 1]).render.countP
      (fun line => entryName line == "up") = 1 ∧
    (Registry.mk [Metric.mk "up" 1]).registerMetric (Metric.mk "up" 2) =
      Except.error (RegistrationError.DuplicateNameError "up") :=
  ⟨(registry_unique_names (Registry.mk [Metric.mk "up" 1]) "up"
      (by decide) (by decide)).1,
   (registry_unique_names (Registry.mk [Metric.mk "up" 1]) "up"
      (by decide) (by decide)).2 (Metric.mk "up" 2) rfl⟩

/-- C9: every request whose path matches none of the three registered
routes falls through to Express's final handler and is answered with
status 404. -/
theorem unmatched_path_404 (rr : Except String String) (req : Request)
    (h1 : req.path ≠ "/") (h2 : req.path ≠ "/health")
    (h3 : req.path ≠ "/metrics") :
    dispatch rr req = Outcome.reply (notFoundResponse req) ∧
    (notFoundResponse req).status = 404 := by
  refine ⟨?_, rfl⟩
  unfold dispatch
  rw [if_neg (fun hc => h1 hc.2), if_neg (fun hc => h2 hc.2),
    if_neg (fun hc => h3 hc.2)]

theorem unmatched_path_404_witness :
    dispatch (Except.ok "") (Request.mk "GET" "/nonexistent" [] [] "") =
      Outcome.reply (notFoundResponse (Request.mk "GET" "/nonexistent" [] [] "")) ∧
    (notFoundResponse (Request.mk "GET" "/nonexistent" [] [] "")).status = 404 :=
  unmatched_path_404 (Except.ok "") (Request.mk "GET" "/nonexistent" [] [] "")
    (by decide) (by decide) (by decide)

/-- C10: the `/` and `/health` handlers read nothing from the request:
any two GET requests to the same of these routes — whatever their headers,
query strings or bodies, and whatever the metrics render outcome — produce
identical outcomes. -/
theorem home_health_routes_deterministic (rr1 rr2 : Except String String)
    (r1 r2 : Request) (hm1 : r1.method = "GET") (hm2 : r2.method = "GET")
    (hp : r1.path = r2.path) (hr : r1.path = "/" ∨ r1.path = "/health") :
    dispatch rr1 r1 = dispatch rr2 r2 := by
  rcases hr with h | h
  · rw [dispatch_home_eq rr1 r1 hm1 h,
      dispatch_home_eq rr2 r2 hm2 (hp.symm.trans h)]
  · rw [dispatch_health_eq rr1 r1 hm1 h,
      dispatch_health_eq rr2 r2 hm2 (hp.symm.trans h)]

theorem home_health_routes_deterministic_witness :
    dispatch (Except.ok "a") (Request.mk "GET" "/health" [("X-Trace", "1")] [] "b") =
    dispatch (Except.error "boom") (Request.mk "GET" "/health" [] [("q", "2")] "") :=
  home_health_routes_deterministic (Except.ok "a") (Except.error "boom")
    (Request.mk "GET" "/health" [("X-Trace", "1")] [] "b")
    (Request.mk "GET" "/health" [] [("q", "2")] "")
    rfl rfl rfl (Or.inr rfl)

end NodeEksApp
